import Mathlib

/-!
Shallow embedding of `modules/bump_allocator/src/lib.rs`: the
`EarlyAllocator<const PAGE_SIZE: usize>` dual-direction bump allocator of
the arceos exercise repository.  Byte allocations bump `b_pos` forward from
`start`; page allocations bump `p_pos` backward from `end`.

Modelling conventions:
- `usize` values are natural numbers; the 64-bit bound is the explicit
  constant `USIZE = 2 ^ 64`.  A `usize` add/sub/mul that leaves
  `[0, USIZE)` is an arithmetic overflow, i.e. a Rust panic; it is modelled
  as the `Outcome.fatal .arithOverflow` outcome.  The two explicit
  `panic!` calls of the source get their own `PanicKind` constructors so
  the abort causes stay distinguishable.
- The Rust field `end` is called `end_` here because `end` is a Lean
  keyword; every other name follows the source.
- `alloc` receives `layout.size()` and `layout.align()`; the source reads
  only the size, so the align argument is bound as `_align`.
- `NonNull::new(self.b_pos as *mut u8)` returns `None` exactly when
  `b_pos` is the null address `0`, in which case `alloc` answers
  `Err(AllocError::NoMemory)` through the `ok_or` line of the source.
- The bitwise complement `!x` of the source acts on a 64-bit word, so it
  is `USIZE - 1 - x` for `x < USIZE` (`usizeNot`); `&` is `Nat.land`
  written `&&&`.
-/

namespace EarlyAlloc

/-- The number `2 ^ 64`: one past the largest `usize` value. -/
def USIZE : Nat := 2 ^ 64

/-- Bitwise NOT of a 64-bit word, valid for `x < USIZE`. -/
def usizeNot (x : Nat) : Nat := (USIZE - 1) - x

/-- Reason a call aborted the process. -/
inductive PanicKind where
  /-- A `usize` add/sub/mul left the representable range (Rust arithmetic panic). -/
  | arithOverflow
  /-- The source line `panic!("Invalid bytes deallocation!")`. -/
  | invalidBytesDealloc
  /-- The source line `panic!("Invalid pages deallocation!")`. -/
  | invalidPagesDealloc
deriving DecidableEq

/-- State of `EarlyAllocator`: the five `usize` fields of the Rust struct. -/
structure EarlyAllocator where
  /-- Start address of the memory range. -/
  start : Nat
  /-- End address of the memory range (`end` in the source). -/
  end_ : Nat
  /-- Current position of the bytes area. -/
  b_pos : Nat
  /-- Current position of the pages area. -/
  p_pos : Nat
  /-- Number of outstanding byte allocations. -/
  count : Nat
deriving DecidableEq

/-- Result of one allocator call: success carrying the returned value and
the state after the call, `Err(AllocError::NoMemory)` (which leaves the
state unchanged), or a panic. -/
inductive Outcome (α : Type) where
  | ok (val : α) (s : EarlyAllocator)
  | noMem
  | fatal (k : PanicKind)
deriving DecidableEq

/-- `BaseAllocator::init(start, size)`: sets the five fields. -/
def initState (start size : Nat) : EarlyAllocator :=
  { start := start
    end_ := start + size
    b_pos := start
    p_pos := start + size
    count := 0 }

/-- `ByteAllocator::alloc(layout)`, with `size = layout.size()`. -/
def alloc (s : EarlyAllocator) (size _align : Nat) : Outcome Nat :=
  -- if self.b_pos + size > self.p_pos { return Err(AllocError::NoMemory); }
  if USIZE ≤ s.b_pos + size then .fatal .arithOverflow
  else if s.p_pos < s.b_pos + size then .noMem
  -- let pos = NonNull::new(self.b_pos as *mut u8).ok_or(AllocError::NoMemory)?;
  else if s.b_pos = 0 then .noMem
  -- self.b_pos += size; self.count += 1; Ok(pos)
  else if USIZE ≤ s.count + 1 then .fatal .arithOverflow
  else .ok s.b_pos { s with b_pos := s.b_pos + size, count := s.count + 1 }

/-- `ByteAllocator::dealloc(pos, layout)`; the layout is unused by the source. -/
def dealloc (s : EarlyAllocator) (pos : Nat) : Outcome Unit :=
  -- if pos >= self.start && pos < self.end { ... } else { panic!(...) }
  if s.start ≤ pos ∧ pos < s.end_ then
    -- self.count -= 1 has no zero guard: at count == 0 the subtraction underflows
    if s.count = 0 then .fatal .arithOverflow
    -- if self.count == 0 { self.b_pos = pos; }
    else if s.count - 1 = 0 then .ok () { s with count := s.count - 1, b_pos := pos }
    else .ok () { s with count := s.count - 1 }
  else .fatal .invalidBytesDealloc

/-- `ByteAllocator::total_bytes()`. -/
def total_bytes (s : EarlyAllocator) : Nat := s.end_ - s.start

/-- `ByteAllocator::used_bytes()`. -/
def used_bytes (s : EarlyAllocator) : Nat := s.b_pos - s.start

/-- `ByteAllocator::available_bytes()`. -/
def available_bytes (s : EarlyAllocator) : Nat := s.end_ - s.b_pos

/-- `PageAllocator::alloc_pages(num_pages, align_pow2)`; `PS` is the
`PAGE_SIZE` const generic. -/
def alloc_pages (PS : Nat) (s : EarlyAllocator) (num_pages align_pow2 : Nat) :
    Outcome Nat :=
  -- if self.p_pos - num_pages * PAGE_SIZE < self.start { return Err(NoMemory); }
  if USIZE ≤ num_pages * PS then .fatal .arithOverflow
  else if s.p_pos < num_pages * PS then .fatal .arithOverflow
  else if s.p_pos - num_pages * PS < s.start then .noMem
  -- let aligned_pos = (self.p_pos - num_pages * PAGE_SIZE) & !(align_pow2 - 1);
  else if align_pow2 = 0 then .fatal .arithOverflow
  else
    let aligned_pos := (s.p_pos - num_pages * PS) &&& usizeNot (align_pow2 - 1)
    -- self.p_pos = aligned_pos; Ok(aligned_pos)
    .ok aligned_pos { s with p_pos := aligned_pos }

/-- `PageAllocator::dealloc_pages(pos, num_pages)`; `num_pages` is unused
by the source. -/
def dealloc_pages (s : EarlyAllocator) (pos _num_pages : Nat) : Outcome Unit :=
  -- if pos >= self.start && pos < self.end { /* nothing */ } else { panic!(...) }
  if s.start ≤ pos ∧ pos < s.end_ then .ok () s
  else .fatal .invalidPagesDealloc

/-- `PageAllocator::total_pages()`. -/
def total_pages (PS : Nat) (s : EarlyAllocator) : Nat := (s.end_ - s.start) / PS

/-- `PageAllocator::used_pages()` exactly as the source computes it. -/
def used_pages (PS : Nat) (s : EarlyAllocator) : Nat := (s.p_pos - s.start) / PS

/-- `PageAllocator::available_pages()` exactly as the source computes it. -/
def available_pages (PS : Nat) (s : EarlyAllocator) : Nat := (s.end_ - s.p_pos) / PS

/-- States reachable from a valid `init` through successful operations.
A successful operation is one whose outcome is `ok`; `noMem` leaves the
state unchanged and a panic ends the program, so neither produces a new
state. -/
inductive Reachable (PS : Nat) : EarlyAllocator → Prop where
  | init (start size : Nat) (h : start + size < USIZE) :
      Reachable PS (initState start size)
  | step_alloc {s s' : EarlyAllocator} {size align addr : Nat} :
      Reachable PS s → alloc s size align = .ok addr s' → Reachable PS s'
  | step_dealloc {s s' : EarlyAllocator} {pos : Nat} :
      Reachable PS s → dealloc s pos = .ok () s' → Reachable PS s'
  | step_alloc_pages {s s' : EarlyAllocator} {n a addr : Nat} :
      Reachable PS s → alloc_pages PS s n a = .ok addr s' → Reachable PS s'
  | step_dealloc_pages {s s' : EarlyAllocator} {pos n : Nat} :
      Reachable PS s → dealloc_pages s pos n = .ok () s' → Reachable PS s'

/-- States reachable when the configuration is the aligned one: `PAGE_SIZE`
divides `end`, and every `alloc_pages` call uses a power-of-two
`align_pow2` dividing `PAGE_SIZE`. -/
inductive AlignedReachable (PS : Nat) : EarlyAllocator → Prop where
  | init (start size : Nat) (h : start + size < USIZE) (hdvd : PS ∣ start + size) :
      AlignedReachable PS (initState start size)
  | step_alloc {s s' : EarlyAllocator} {size align addr : Nat} :
      AlignedReachable PS s → alloc s size align = .ok addr s' → AlignedReachable PS s'
  | step_dealloc {s s' : EarlyAllocator} {pos : Nat} :
      AlignedReachable PS s → dealloc s pos = .ok () s' → AlignedReachable PS s'
  | step_alloc_pages {s s' : EarlyAllocator} {n a addr : Nat} (k : Nat)
      (hk : a = 2 ^ k) (ha : a ∣ PS) :
      AlignedReachable PS s → alloc_pages PS s n a = .ok addr s' →
      AlignedReachable PS s'
  | step_dealloc_pages {s s' : EarlyAllocator} {pos n : Nat} :
      AlignedReachable PS s → dealloc_pages s pos n = .ok () s' →
      AlignedReachable PS s'

-- Inversion of a successful byte allocation.
theorem alloc_ok_inv {s s' : EarlyAllocator} {size align addr : Nat}
    (h : alloc s size align = .ok addr s') :
    s'.start = s.start ∧ s'.end_ = s.end_ ∧ s'.b_pos = s.b_pos + size ∧
    s'.p_pos = s.p_pos ∧ s'.count = s.count + 1 ∧ addr = s.b_pos ∧
    s.b_pos + size ≤ s.p_pos ∧ s.b_pos ≠ 0 ∧ s.b_pos + size < USIZE := by
  unfold alloc at h
  split_ifs at h with h1 h2 h3 h4
  injection h with h5 h6
  subst h6
  exact ⟨rfl, rfl, rfl, rfl, rfl, h5.symm, by omega, h3, by omega⟩

-- Inversion of a successful byte deallocation.
theorem dealloc_ok_inv {s s' : EarlyAllocator} {pos : Nat}
    (h : dealloc s pos = .ok () s') :
    s'.start = s.start ∧ s'.end_ = s.end_ ∧ s'.p_pos = s.p_pos ∧
    s'.count = s.count - 1 ∧ (s'.b_pos = pos ∨ s'.b_pos = s.b_pos) ∧
    s.start ≤ pos ∧ pos < s.end_ ∧ 1 ≤ s.count := by
  unfold dealloc at h
  split_ifs at h with h1 h2 h3
  · injection h with h4 h5
    subst h5
    exact ⟨rfl, rfl, rfl, rfl, Or.inl rfl, h1.1, h1.2, by omega⟩
  · injection h with h4 h5
    subst h5
    exact ⟨rfl, rfl, rfl, rfl, Or.inr rfl, h1.1, h1.2, by omega⟩

-- Inversion of a successful page allocation.
theorem alloc_pages_ok_inv {PS : Nat} {s s' : EarlyAllocator} {n a addr : Nat}
    (h : alloc_pages PS s n a = .ok addr s') :
    s'.start = s.start ∧ s'.end_ = s.end_ ∧ s'.b_pos = s.b_pos ∧
    s'.p_pos = (s.p_pos - n * PS) &&& usizeNot (a - 1) ∧ s'.count = s.count ∧
    addr = s'.p_pos ∧
    n * PS ≤ s.p_pos ∧ s.start ≤ s.p_pos - n * PS ∧ a ≠ 0 ∧ n * PS < USIZE := by
  unfold alloc_pages at h
  split_ifs at h with h1 h2 h3 h4
  injection h with h5 h6
  subst h6
  exact ⟨rfl, rfl, rfl, rfl, rfl, h5.symm, by omega, by omega, h4, by omega⟩

-- Inversion of a successful page deallocation.
theorem dealloc_pages_ok_inv {s s' : EarlyAllocator} {pos n : Nat}
    (h : dealloc_pages s pos n = .ok () s') :
    s' = s ∧ s.start ≤ pos ∧ pos < s.end_ := by
  unfold dealloc_pages at h
  split_ifs at h with h1
  injection h with h2 h3
  exact ⟨h3.symm, h1.1, h1.2⟩

-- A multiple of 2 ^ k has no set bit below position k.
theorem testBit_eq_false_of_two_pow_dvd {k c i : Nat} (hd : 2 ^ k ∣ c)
    (hik : i < k) : c.testBit i = false := by
  obtain ⟨q, rfl⟩ := hd
  rw [Nat.testBit_mul_pow_two]
  simp [show ¬ (i ≥ k) from by omega]

-- The source alignment mask leaves an already-aligned 64-bit value unchanged.
theorem and_usizeNot_of_dvd {k c : Nat} (hd : 2 ^ k ∣ c) (hc : c < USIZE) :
    c &&& usizeNot (2 ^ k - 1) = c := by
  rcases Nat.eq_zero_or_pos c with rfl | hcpos
  · simp
  · have hk2 : 2 ^ k ≤ c := Nat.le_of_dvd hcpos hd
    have hcu : c < 2 ^ 64 := by simpa [USIZE] using hc
    have hk64 : k ≤ 64 := by
      by_contra hgt
      push_neg at hgt
      have h1 : (2 : Nat) ^ 64 < 2 ^ k := Nat.pow_lt_pow_right (by norm_num) hgt
      omega
    have hmask : usizeNot (2 ^ k - 1) = (2 ^ (64 - k) - 1) <<< k := by
      have h1 : (2 : Nat) ^ k ≤ 2 ^ 64 := Nat.pow_le_pow_right (by norm_num) hk64
      have h2 : (2 : Nat) ^ (64 - k) * 2 ^ k = 2 ^ 64 := by
        rw [← pow_add]
        congr 1
        omega
      have h3 : (1 : Nat) ≤ 2 ^ k := Nat.one_le_two_pow
      rw [Nat.shiftLeft_eq, Nat.sub_mul, one_mul, h2]
      unfold usizeNot USIZE
      omega
    rw [hmask]
    apply Nat.eq_of_testBit_eq
    intro i
    rw [Nat.testBit_and, Nat.testBit_shiftLeft, Nat.testBit_two_pow_sub_one]
    cases hbit : c.testBit i with
    | false => simp
    | true =>
      have hi64 : i < 64 := by
        by_contra hh
        push_neg at hh
        have hci : c < 2 ^ i :=
          lt_of_lt_of_le hcu (Nat.pow_le_pow_right (by norm_num) hh)
        rw [Nat.testBit_lt_two_pow hci] at hbit
        cases hbit
      have hik : k ≤ i := by
        by_contra hh
        push_neg at hh
        rw [testBit_eq_false_of_two_pow_dvd hd hh] at hbit
        cases hbit
      have h5 : i - k < 64 - k := by omega
      simp [hik, h5]

-- The invariant actually maintained by every successful operation.
theorem reachable_inv {PS : Nat} {s : EarlyAllocator} (h : Reachable PS s) :
    s.start ≤ s.b_pos ∧ s.b_pos ≤ s.end_ ∧ s.p_pos ≤ s.end_ ∧ s.end_ < USIZE := by
  induction h with
  | init start size h =>
      refine ⟨Nat.le_refl _, ?_, Nat.le_refl _, h⟩
      exact Nat.le_add_right start size
  | step_alloc hs hok ih =>
      obtain ⟨e1, e2, e3, e4, e5, -, hle, -, -⟩ := alloc_ok_inv hok
      omega
  | step_dealloc hs hok ih =>
      obtain ⟨e1, e2, e3, e4, e5, hlo, hhi, -⟩ := dealloc_ok_inv hok
      omega
  | @step_alloc_pages s s' n a addr hs hok ih =>
      obtain ⟨e1, e2, e3, e4, e5, -, hnp, -, -, -⟩ := alloc_pages_ok_inv hok
      have hland : (s.p_pos - n * PS) &&& usizeNot (a - 1) ≤ s.p_pos - n * PS :=
        Nat.and_le_left
      omega
  | step_dealloc_pages hs hok ih =>
      obtain ⟨rfl, -, -⟩ := dealloc_pages_ok_inv hok
      exact ih

-- In the aligned configuration, the page zone keeps its size a multiple of
-- PAGE_SIZE: the alignment mask is then always a no-op.
theorem alignedReachable_inv {PS : Nat} {s : EarlyAllocator}
    (h : AlignedReachable PS s) :
    PS ∣ s.end_ - s.p_pos ∧ PS ∣ s.end_ ∧ s.p_pos ≤ s.end_ ∧ s.end_ < USIZE := by
  induction h with
  | init start size hlt hdvd =>
      refine ⟨?_, hdvd, Nat.le_refl _, hlt⟩
      simp [initState]
  | step_alloc hs hok ih =>
      obtain ⟨e1, e2, e3, e4, e5, -, -, -, -⟩ := alloc_ok_inv hok
      rw [e2, e4]
      exact ih
  | step_dealloc hs hok ih =>
      obtain ⟨e1, e2, e3, e4, e5, -, -, -⟩ := dealloc_ok_inv hok
      rw [e2, e3]
      exact ih
  | @step_alloc_pages s s' n a addr k hk ha hs hok ih =>
      obtain ⟨e1, e2, e3, e4, e5, -, hnp, hcand, ha0, -⟩ := alloc_pages_ok_inv hok
      obtain ⟨hgap, hend, hle, hlt⟩ := ih
      have hpp : PS ∣ s.p_pos := by
        have hsub := Nat.dvd_sub' hend hgap
        rwa [Nat.sub_sub_self hle] at hsub
      have hcd : PS ∣ s.p_pos - n * PS := Nat.dvd_sub' hpp (dvd_mul_left PS n)
      have hcu : s.p_pos - n * PS < USIZE := by omega
      have hak : (2 : Nat) ^ k ∣ s.p_pos - n * PS := dvd_trans (hk ▸ ha) hcd
      have haligned : (s.p_pos - n * PS) &&& usizeNot (a - 1) = s.p_pos - n * PS := by
        rw [hk]
        exact and_usizeNot_of_dvd hak hcu
      rw [e2, e4, haligned]
      refine ⟨?_, hend, by omega, by omega⟩
      have hsplit : s.end_ - (s.p_pos - n * PS) = (s.end_ - s.p_pos) + n * PS := by
        omega
      rw [hsplit]
      exact Nat.dvd_add hgap (dvd_mul_left PS n)
  | step_dealloc_pages hs hok ih =>
      obtain ⟨rfl, -, -⟩ := dealloc_pages_ok_inv hok
      exact ih

/-- Claim C1 (code divergence, evaluated at the failing input): with
PAGE_SIZE = 4096, immediately after `init(0, 4096)` the source returns
`used_pages() = 1` (the whole region) and `available_pages() = 0`, because
it computes `used_pages = (p_pos - start) / PAGE_SIZE` and
`available_pages = (end - p_pos) / PAGE_SIZE` — swapped relative to the
claimed formulas and to the zone diagram of the source doc comment, which
places the pages-used zone in `[p_pos, end)`.  In particular
`used_pages() == 0` immediately after `init` fails. -/
theorem c1_used_pages_swapped_at_init :
    used_pages 4096 (initState 0 4096) = 1 ∧
    available_pages 4096 (initState 0 4096) = 0 := by
  decide

/-- Claim C2 (counterexample): after `init(0, 4096)`, the call
`alloc(size=64)` does not succeed with address 0: it returns
`Err(AllocError::NoMemory)`, because the candidate address `b_pos = 0` is
the null pointer and `NonNull::new(0 as *mut u8)` is `None`. -/
theorem c2_counterexample :
    alloc (initState 0 4096) 64 1 = Outcome.noMem := by
  decide

/-- Claim C2 (amended): in the concrete scenario with region `[0, 4096)`
and PAGE_SIZE = 4096, `alloc(size=64)` after `init(0, 4096)` fails with
`NoMemory` (address 0 cannot be handed out as a `NonNull`); in the same
scenario shifted to a nonzero start — region `[4096, 8192)` — the call
succeeds, returns address 4096 = start, and afterwards
`used_bytes() == 64`. -/
theorem c2_amended :
    alloc (initState 0 4096) 64 1 = Outcome.noMem ∧
    alloc (initState 4096 4096) 64 1 =
      Outcome.ok 4096
        { start := 4096, end_ := 8192, b_pos := 4160, p_pos := 8192, count := 1 } ∧
    used_bytes
        { start := 4096, end_ := 8192, b_pos := 4160, p_pos := 8192, count := 1 } = 64 := by
  decide

/-- Claim C3 (counterexample): the state reached by `init(4096, 4096)`
followed by the successful call `alloc_pages(1, align_pow2 = 8192)` has
`p_pos = 0`, so `b_pos ≤ p_pos` (and `start ≤ p_pos`) is violated: the
aligned-down candidate `(8192 - 4096) & !(8192 - 1) = 0` is stored without
being re-checked against `start` or `b_pos`. -/
theorem c3_counterexample :
    Reachable 4096
      { start := 4096, end_ := 8192, b_pos := 4096, p_pos := 0, count := 0 } ∧
    ¬ (({ start := 4096, end_ := 8192, b_pos := 4096, p_pos := 0, count := 0 } :
          EarlyAllocator).b_pos ≤
       ({ start := 4096, end_ := 8192, b_pos := 4096, p_pos := 0, count := 0 } :
          EarlyAllocator).p_pos) := by
  constructor
  · exact @Reachable.step_alloc_pages 4096 (initState 4096 4096)
      ⟨4096, 8192, 4096, 0, 0⟩ 1 8192 0
      (Reachable.init 4096 4096 (by decide)) (by decide)
  · decide

/-- Claim C3 (amended): after every successful operation starting from a
valid init, `start ≤ b_pos ≤ end` and `p_pos ≤ end` hold.  The claimed
full chain `start ≤ b_pos ≤ p_pos ≤ end` does not survive `alloc_pages`:
the candidate is checked against `start` only — not against `b_pos` — and
the mask is applied after the check, so aligning down can push `p_pos`
below `b_pos` and even below `start`. -/
theorem c3_amended (PS : Nat) (s : EarlyAllocator) (h : Reachable PS s) :
    s.start ≤ s.b_pos ∧ s.b_pos ≤ s.end_ ∧ s.p_pos ≤ s.end_ := by
  have hinv := reachable_inv h
  exact ⟨hinv.1, hinv.2.1, hinv.2.2.1⟩

/-- Witness for the amended C3 at the concrete reachable state
`init(0, 4096)`. -/
theorem c3_amended_witness :
    Reachable 4096 (initState 0 4096) ∧
    ((initState 0 4096).start ≤ (initState 0 4096).b_pos ∧
     (initState 0 4096).b_pos ≤ (initState 0 4096).end_ ∧
     (initState 0 4096).p_pos ≤ (initState 0 4096).end_) :=
  ⟨Reachable.init 0 4096 (by decide),
   c3_amended 4096 (initState 0 4096) (Reachable.init 0 4096 (by decide))⟩

/-- Claim C4 (counterexample): in the state after `init(0, 4096)`, the call
`alloc(size = 64, align = 8)` has `b_pos + size = 64 ≤ p_pos = 4096`, yet
it fails with `NoMemory` — because `b_pos = 0` is the null pointer — so
`NoMemory` does not happen exactly when `b_pos + size > p_pos`. -/
theorem c4_counterexample :
    alloc (initState 0 4096) 64 8 = Outcome.noMem ∧
    ¬ ((initState 0 4096).p_pos < (initState 0 4096).b_pos + 64) := by
  decide

/-- Claim C4 (amended): provided the usize arithmetic does not overflow,
`alloc(size, align)` fails with `NoMemory` exactly when
`b_pos + size > p_pos` or `b_pos == 0` (the bump address would be the null
pointer); otherwise it succeeds, returns the address at `b_pos`, advances
`b_pos` by `size`, and increments `count` by one. -/
theorem c4_amended (s : EarlyAllocator) (size align : Nat)
    (h1 : s.b_pos + size < USIZE) (h2 : s.count + 1 < USIZE) :
    (alloc s size align = Outcome.noMem ↔
      (s.p_pos < s.b_pos + size ∨ s.b_pos = 0)) ∧
    (s.b_pos + size ≤ s.p_pos → s.b_pos ≠ 0 →
      alloc s size align =
        Outcome.ok s.b_pos
          { s with b_pos := s.b_pos + size, count := s.count + 1 }) := by
  unfold alloc
  split_ifs with g1 g2 g3 g4
  · exact absurd g1 (by omega)
  · exact ⟨by simp [g2], fun hle _ => absurd g2 (by omega)⟩
  · exact ⟨by simp [g3], fun _ h0 => absurd g3 h0⟩
  · exact absurd g4 (by omega)
  · exact ⟨by simp [g2, g3], fun _ _ => rfl⟩

/-- Witness for the amended C4 at the state after `init(4096, 4096)` with
`size = 64`, `align = 8`. -/
theorem c4_amended_witness :
    ((initState 4096 4096).b_pos + 64 < USIZE ∧
     (initState 4096 4096).count + 1 < USIZE) ∧
    ((alloc (initState 4096 4096) 64 8 = Outcome.noMem ↔
        ((initState 4096 4096).p_pos < (initState 4096 4096).b_pos + 64 ∨
         (initState 4096 4096).b_pos = 0)) ∧
     ((initState 4096 4096).b_pos + 64 ≤ (initState 4096 4096).p_pos →
      (initState 4096 4096).b_pos ≠ 0 →
      alloc (initState 4096 4096) 64 8 =
        Outcome.ok (initState 4096 4096).b_pos
          { initState 4096 4096 with
              b_pos := (initState 4096 4096).b_pos + 64,
              count := (initState 4096 4096).count + 1 })) :=
  ⟨⟨by decide, by decide⟩,
   c4_amended (initState 4096 4096) 64 8 (by decide) (by decide)⟩

/-- Claim C5 (counterexample): in the state after `init(4096, 4096)`
(`start = 4096`, `p_pos = 8192`), `alloc_pages(3, 1)` has the mathematical
candidate `p_pos - 3 * PAGE_SIZE = -4096 < start`, so the claim demands a
`NoMemory` failure — but the unchecked usize subtraction
`p_pos - num_pages * PAGE_SIZE` underflows, and the call aborts with an
arithmetic panic instead of returning `NoMemory`. -/
theorem c5_counterexample :
    alloc_pages 4096 (initState 4096 4096) 3 1 =
      Outcome.fatal PanicKind.arithOverflow ∧
    alloc_pages 4096 (initState 4096 4096) 3 1 ≠ Outcome.noMem := by
  decide

/-- Claim C5 (amended): provided `num_pages * PAGE_SIZE ≤ p_pos` (so the
backward bump does not underflow usize) and `align_pow2 ≥ 1`,
`alloc_pages(num_pages, align_pow2)` fails with `NoMemory` exactly when
`p_pos - num_pages * PAGE_SIZE < start`; on success it sets `p_pos` to the
candidate aligned down by the mask
`(p_pos - num_pages * PAGE_SIZE) & !(align_pow2 - 1)` and returns that
aligned address. -/
theorem c5_amended (PS : Nat) (s : EarlyAllocator) (n a : Nat)
    (hp : s.p_pos < USIZE) (hn : n * PS ≤ s.p_pos) (ha : 1 ≤ a) :
    (alloc_pages PS s n a = Outcome.noMem ↔ s.p_pos - n * PS < s.start) ∧
    (s.start ≤ s.p_pos - n * PS →
      alloc_pages PS s n a =
        Outcome.ok ((s.p_pos - n * PS) &&& usizeNot (a - 1))
          { s with p_pos := (s.p_pos - n * PS) &&& usizeNot (a - 1) }) := by
  unfold alloc_pages
  split_ifs with g1 g2 g3 g4
  · exact absurd g1 (by omega)
  · exact absurd g2 (by omega)
  · exact ⟨by simp [g3], fun hge => absurd g3 (by omega)⟩
  · exact absurd g4 (by omega)
  · exact ⟨by simp [g3], fun _ => rfl⟩

/-- Witness for the amended C5 in the state after `init(4096, 8192)` with
`num_pages = 1`, `align_pow2 = 4096`. -/
theorem c5_amended_witness :
    ((initState 4096 8192).p_pos < USIZE ∧
     1 * 4096 ≤ (initState 4096 8192).p_pos ∧ (1 : Nat) ≤ 4096) ∧
    ((alloc_pages 4096 (initState 4096 8192) 1 4096 = Outcome.noMem ↔
        (initState 4096 8192).p_pos - 1 * 4096 < (initState 4096 8192).start) ∧
     ((initState 4096 8192).start ≤ (initState 4096 8192).p_pos - 1 * 4096 →
       alloc_pages 4096 (initState 4096 8192) 1 4096 =
         Outcome.ok
           (((initState 4096 8192).p_pos - 1 * 4096) &&& usizeNot (4096 - 1))
           { initState 4096 8192 with
               p_pos := ((initState 4096 8192).p_pos - 1 * 4096) &&&
                 usizeNot (4096 - 1) })) :=
  ⟨⟨by decide, by decide, by decide⟩,
   c5_amended 4096 (initState 4096 8192) 1 4096 (by decide) (by decide) (by decide)⟩

/-- Claim C6 (counterexample): in the state after `init(4096, 4096)` —
where `count = 0` — the call `dealloc(4096)` has its address inside
`[start, end)`, yet `count` is not decremented by one: the unchecked
`count -= 1` underflows and the call aborts. -/
theorem c6_counterexample :
    ((initState 4096 4096).start ≤ 4096 ∧
     (4096 : Nat) < (initState 4096 4096).end_) ∧
    dealloc (initState 4096 4096) 4096 = Outcome.fatal PanicKind.arithOverflow := by
  decide

/-- Claim C6 (amended): for every dealloc call with an address inside
`[start, end)` made while `count ≥ 1`: `count` is decremented by one; if
`count` thereby reaches zero, `b_pos` is reset to exactly the address
passed to that call (not necessarily `start`); while `count` remains
greater than zero, `b_pos` is unchanged and nothing is freed.  (The
`count = 0` case aborts through the unguarded decrement, see C10.) -/
theorem c6_amended (s : EarlyAllocator) (pos : Nat)
    (h1 : s.start ≤ pos) (h2 : pos < s.end_) (h3 : 1 ≤ s.count) :
    dealloc s pos =
      Outcome.ok ()
        { s with count := s.count - 1,
                 b_pos := if s.count - 1 = 0 then pos else s.b_pos } := by
  unfold dealloc
  rw [if_pos ⟨h1, h2⟩, if_neg (by omega)]
  split_ifs with g
  · rfl
  · rfl

/-- Witness for the amended C6: one outstanding allocation
(`count = 1`, `b_pos = 4160`) freed at address 4096 resets `b_pos` to 4096
and `count` to 0. -/
theorem c6_amended_witness :
    (({ start := 4096, end_ := 8192, b_pos := 4160, p_pos := 8192, count := 1 } :
        EarlyAllocator).start ≤ 4096 ∧
     (4096 : Nat) <
       ({ start := 4096, end_ := 8192, b_pos := 4160, p_pos := 8192, count := 1 } :
         EarlyAllocator).end_ ∧
     1 ≤ ({ start := 4096, end_ := 8192, b_pos := 4160, p_pos := 8192, count := 1 } :
         EarlyAllocator).count) ∧
    dealloc { start := 4096, end_ := 8192, b_pos := 4160, p_pos := 8192, count := 1 }
        4096 =
      Outcome.ok ()
        { start := 4096, end_ := 8192, b_pos := 4096, p_pos := 8192, count := 0 } :=
  ⟨⟨by decide, by decide, by decide⟩,
   c6_amended { start := 4096, end_ := 8192, b_pos := 4160, p_pos := 8192, count := 1 }
     4096 (by decide) (by decide) (by decide)⟩

/-- Claim C7 (counterexample): from `init(0, 5120)` with PAGE_SIZE = 4096,
the successful call `alloc_pages(1, align_pow2 = 2048)` aligns the
candidate 1024 down to 0, reaching a state with
`end - p_pos = 5120`, which is not a multiple of 4096. -/
theorem c7_counterexample :
    Reachable 4096 { start := 0, end_ := 5120, b_pos := 0, p_pos := 0, count := 0 } ∧
    ¬ ((4096 : Nat) ∣
        (({ start := 0, end_ := 5120, b_pos := 0, p_pos := 0, count := 0 } :
            EarlyAllocator).end_ -
         ({ start := 0, end_ := 5120, b_pos := 0, p_pos := 0, count := 0 } :
            EarlyAllocator).p_pos)) := by
  constructor
  · exact @Reachable.step_alloc_pages 4096 (initState 0 5120)
      ⟨0, 5120, 0, 0, 0⟩ 1 2048 0
      (Reachable.init 0 5120 (by decide)) (by decide)
  · decide

/-- Claim C7 (amended): `end - p_pos` is a multiple of the configured
PAGE_SIZE after every successful operation, provided PAGE_SIZE divides
`end` and every `alloc_pages` call uses a power-of-two `align_pow2`
dividing PAGE_SIZE — the alignment mask is then a no-op on the already
page-aligned candidate.  Without these provisos the mask can strip
sub-page bits from `p_pos` (see the counterexample). -/
theorem c7_amended (PS : Nat) (s : EarlyAllocator) (h : AlignedReachable PS s) :
    PS ∣ s.end_ - s.p_pos :=
  (alignedReachable_inv h).1

/-- Witness for the amended C7 at the concrete state `init(0, 4096)` with
PAGE_SIZE = 4096. -/
theorem c7_amended_witness :
    AlignedReachable 4096 (initState 0 4096) ∧
    (4096 : Nat) ∣ (initState 0 4096).end_ - (initState 0 4096).p_pos :=
  ⟨AlignedReachable.init 0 4096 (by decide) (by decide),
   c7_amended 4096 (initState 0 4096)
     (AlignedReachable.init 0 4096 (by decide) (by decide))⟩

/-- Claim C8: for every state, every address inside `[start, end)` and
every `num_pages`, `dealloc_pages` returns successfully with the whole
Region State unchanged — in particular `p_pos`, `used_pages()` and
`available_pages()` are unchanged; pages are never reclaimed. -/
theorem c8_dealloc_pages_frame (s : EarlyAllocator) (pos n : Nat)
    (h1 : s.start ≤ pos) (h2 : pos < s.end_) :
    dealloc_pages s pos n = Outcome.ok () s := by
  unfold dealloc_pages
  rw [if_pos ⟨h1, h2⟩]

/-- Witness for C8 at `init(0, 4096)`, address 100, 5 pages. -/
theorem c8_witness :
    ((initState 0 4096).start ≤ 100 ∧ (100 : Nat) < (initState 0 4096).end_) ∧
    dealloc_pages (initState 0 4096) 100 5 = Outcome.ok () (initState 0 4096) :=
  ⟨⟨by decide, by decide⟩,
   c8_dealloc_pages_frame (initState 0 4096) 100 5 (by decide) (by decide)⟩

/-- Claim C9: `dealloc` and `dealloc_pages` reach their
invalid-deallocation panic exactly when the address lies outside
`[start, end)`; there they abort rather than return.  (At an in-range
address with `count = 0`, `dealloc` also aborts, but through the
arithmetic underflow of `count -= 1`, which is a different abort cause —
the invalid-deallocation panic itself fires exactly on out-of-range
addresses.) -/
theorem c9_invalid_dealloc_exact (s : EarlyAllocator) (pos n : Nat) :
    (dealloc s pos = Outcome.fatal PanicKind.invalidBytesDealloc ↔
      ¬ (s.start ≤ pos ∧ pos < s.end_)) ∧
    (dealloc_pages s pos n = Outcome.fatal PanicKind.invalidPagesDealloc ↔
      ¬ (s.start ≤ pos ∧ pos < s.end_)) := by
  constructor
  · unfold dealloc
    split_ifs with g1 g2 g3 <;> simp [g1]
  · unfold dealloc_pages
    split_ifs with g1 <;> simp [g1]

/-- Claim C10: calling `dealloc` with an address inside `[start, end)`
while `count == 0` hits the unguarded decrement `count -= 1`: the usize
subtraction underflows and the call aborts with an arithmetic panic — the
`count == 0` state is not protected against a spurious extra
deallocation. -/
theorem c10_dealloc_underflow (s : EarlyAllocator) (pos : Nat)
    (h0 : s.count = 0) (h1 : s.start ≤ pos) (h2 : pos < s.end_) :
    dealloc s pos = Outcome.fatal PanicKind.arithOverflow := by
  unfold dealloc
  rw [if_pos ⟨h1, h2⟩, if_pos h0]

/-- Witness for C10 at `init(0, 4096)` — fresh state, `count = 0` —
deallocating the in-range address 0. -/
theorem c10_witness :
    ((initState 0 4096).count = 0 ∧ (initState 0 4096).start ≤ 0 ∧
     (0 : Nat) < (initState 0 4096).end_) ∧
    dealloc (initState 0 4096) 0 = Outcome.fatal PanicKind.arithOverflow :=
  ⟨⟨by decide, by decide, by decide⟩,
   c10_dealloc_underflow (initState 0 4096) 0 (by decide) (by decide) (by decide)⟩

end EarlyAlloc
